import Mathlib

/-!
Verification development for the madellang backend (audio translation rooms).

The definitions below are a shallow embedding of the following source files:

- src/backend/audio_processor.py   (class AudioProcessor)
- src/backend/translation_service.py (class TranslationService)
- src/backend/main.py              (websocket loop dispatch and REST endpoints)

Modelling conventions:

- Raw audio byte buffers are List Nat (one entry per byte; the byte values are
  never interpreted by the orchestration code, only lengths matter).
- The Whisper speech model is an opaque collaborator. It is modelled by the
  structure WhisperModel: transcribe takes the audio, the forced language
  option and the task string, decode takes the prompt and the decoding
  language. A result of none models a raised exception in the collaborator,
  matching the Python try/except blocks that surround every collaborator call.
- Every collaborator call performed by an invocation is recorded in a trace
  (List ModelCall) so the theorems can speak about which steps ran.
- Python string operations used by the source (substring membership via the
  in operator, str.replace, str.strip) are embedded as structural recursions
  over List Char so that concrete witnesses reduce inside the kernel.
-/

namespace Madellang

/-! ## Embedded Python string primitives -/

/-- Python substring membership `pat in s`, on character lists. -/
def listContains (pat : List Char) : List Char → Bool
  | [] => pat.isPrefixOf []
  | c :: rest => pat.isPrefixOf (c :: rest) || listContains pat rest

/-- One fuel-indexed pass of Python `s.replace(pat, rep)`: replaces
non-overlapping occurrences left to right. The fuel is the length of the
scanned list, so the fuel never runs out for the calls below; when `pat` is
empty the scan leaves the remainder unchanged (the source only ever replaces
a nonempty instruction string, so that case is unreachable there). -/
def replaceFuel (pat rep : List Char) : Nat → List Char → List Char
  | _, [] => []
  | 0, s => s
  | fuel + 1, c :: rest =>
      if pat.isPrefixOf (c :: rest) && !pat.isEmpty then
        rep ++ replaceFuel pat rep fuel (List.drop (pat.length - 1) rest)
      else
        c :: replaceFuel pat rep fuel rest

/-- Python `s.strip()`: whitespace removed from both ends. -/
def stripChars (s : List Char) : List Char :=
  (((s.dropWhile Char.isWhitespace).reverse).dropWhile Char.isWhitespace).reverse

/-- Python `pat in s` on strings. -/
def pyContains (s pat : String) : Bool := listContains pat.data s.data

/-- Python `s.replace(pat, rep)` on strings. -/
def pyReplaceAll (s pat rep : String) : String :=
  ⟨replaceFuel pat.data rep.data s.data.length s.data⟩

/-- Python `s.strip()` on strings. -/
def pyStrip (s : String) : String := ⟨stripChars s.data⟩

/-! ## The speech model collaborator -/

/-- The dictionary returned by `model.transcribe`: the `text` entry and the
optional `language` entry (the source reads it with `.get("language", "en")`,
so absence is meaningful and modelled by `Option`). -/
structure TranscribeResult where
  text : String
  language : Option String
deriving DecidableEq

/-- Opaque collaborator interface of the Whisper model plus the
`whisper.tokenizer.LANGUAGES` display-name table.
`transcribe audio lang task` models `model.transcribe(audio, language=lang,
task=task)`; `decode prompt lang` models `whisper.decode` on the fixed silent
buffer with the given prompt and language. `none` models a raised exception. -/
structure WhisperModel (α : Type) where
  transcribe : α → Option String → String → Option TranscribeResult
  decode : String → String → Option String
  languageName : String → Option String

/-- A collaborator call performed during one invocation. -/
inductive ModelCall where
  | transcribeCall (language : Option String) (task : String)
  | decodeCall (prompt : String) (language : String)
deriving DecidableEq

/-- True for `model.transcribe(..., task="translate")` calls: the
translate-to-English audio pass. -/
def ModelCall.isAudioTranslate : ModelCall → Bool
  | .transcribeCall _ task => task = "translate"
  | .decodeCall _ _ => false

/-- True for `whisper.decode` calls: the prompt-based translation step. -/
def ModelCall.isDecode : ModelCall → Bool
  | .decodeCall _ _ => true
  | .transcribeCall _ _ => false

/-! ## TranslationService (src/backend/translation_service.py) -/

/-- The instruction string built by `TranslationService._prompt_translate`:
`f"Translate the following text to {language_name}: {text}"` where
`language_name = whisper.tokenizer.LANGUAGES.get(target_lang, "Unknown")`. -/
def translatePrompt {α : Type} (m : WhisperModel α) (text target_lang : String) : String :=
  "Translate the following text to " ++ ((m.languageName target_lang).getD "Unknown")
    ++ ": " ++ text

/-- Embeds `TranslationService._prompt_translate` (translation_service.py
lines 122-152). On decode success, if the instruction string is echoed in the
output it is removed and the remainder stripped; on a decode exception the
method returns its input text unchanged (the `except` branch). The second
component records the collaborator call that was attempted. -/
def prompt_translate {α : Type} (m : WhisperModel α) (text target_lang : String) :
    String × List ModelCall :=
  match m.decode (translatePrompt m text target_lang) target_lang with
  | some translation =>
      (if pyContains translation (translatePrompt m text target_lang) then
        pyStrip (pyReplaceAll translation (translatePrompt m text target_lang) "")
      else translation,
       [ModelCall.decodeCall (translatePrompt m text target_lang) target_lang])
  | none =>
      (text, [ModelCall.decodeCall (translatePrompt m text target_lang) target_lang])

/-- The outcome dictionary of `transcribe_and_translate`. -/
structure TranslateOutcome where
  original_text : String
  translated_text : String
  detected_language : String
deriving DecidableEq

/-- Python `source_lang or "en"` on an optional string (used by the
exception branch of `transcribe_and_translate`): `None` and the empty
string are falsy. -/
def orEn : Option String → String
  | none => "en"
  | some s => if s = "" then "en" else s

/-- Embeds `TranslationService.transcribe_and_translate`
(translation_service.py lines 49-120).

Steps, as in the source: one `transcribe` call with `task="transcribe"` to
obtain the original text and the detected language (defaulting to "en" when
the language key is absent); if the detected language equals the target the
original text is returned as the translation; otherwise, for a non-English
target, a translate-to-English audio pass runs when the detected language is
not English and the resulting English text (or the original text when the
detected language is English) is fed to `_prompt_translate`; for an English
target a single translate-task call produces the translation directly. A
raised exception in a `transcribe` call is caught by the surrounding
`except`, which returns empty texts and `source_lang or "en"`. The second
component is the trace of collaborator calls in order. -/
def transcribe_and_translate {α : Type} (m : WhisperModel α) (audio_data : α)
    (source_lang : Option String) (target_lang : String) :
    TranslateOutcome × List ModelCall :=
  match m.transcribe audio_data source_lang "transcribe" with
  | none =>
      (⟨"", "", orEn source_lang⟩, [ModelCall.transcribeCall source_lang "transcribe"])
  | some tr =>
      if tr.language.getD "en" = target_lang then
        (⟨tr.text, tr.text, tr.language.getD "en"⟩,
         [ModelCall.transcribeCall source_lang "transcribe"])
      else if target_lang ≠ "en" then
        if tr.language.getD "en" ≠ "en" then
          match m.transcribe audio_data (some (tr.language.getD "en")) "translate" with
          | none =>
              (⟨"", "", orEn source_lang⟩,
               [ModelCall.transcribeCall source_lang "transcribe",
                ModelCall.transcribeCall (some (tr.language.getD "en")) "translate"])
          | some er =>
              (⟨tr.text, (prompt_translate m er.text target_lang).1, tr.language.getD "en"⟩,
               [ModelCall.transcribeCall source_lang "transcribe",
                ModelCall.transcribeCall (some (tr.language.getD "en")) "translate"]
                 ++ (prompt_translate m er.text target_lang).2)
        else
          (⟨tr.text, (prompt_translate m tr.text target_lang).1, tr.language.getD "en"⟩,
           [ModelCall.transcribeCall source_lang "transcribe"]
             ++ (prompt_translate m tr.text target_lang).2)
      else
        match m.transcribe audio_data (some (tr.language.getD "en")) "translate" with
        | none =>
            (⟨"", "", orEn source_lang⟩,
             [ModelCall.transcribeCall source_lang "transcribe",
              ModelCall.transcribeCall (some (tr.language.getD "en")) "translate"])
        | some trr =>
            (⟨tr.text, trr.text, tr.language.getD "en"⟩,
             [ModelCall.transcribeCall source_lang "transcribe",
              ModelCall.transcribeCall (some (tr.language.getD "en")) "translate"])

/-- Embeds `TranslationService.translate_text` (translation_service.py lines
154-183): identity on equal languages; direct prompt translation into
English; otherwise an English hop (skipped when the source is English)
followed by a prompt translation into the target. Every collaborator failure
inside is already absorbed by `prompt_translate`, so the outer `except`
branch of the source is unreachable for collaborator failures and the
embedding is total. -/
def translate_text {α : Type} (m : WhisperModel α) (text source_lang target_lang : String) :
    String × List ModelCall :=
  if source_lang = target_lang then (text, [])
  else if target_lang = "en" then prompt_translate m text "en"
  else if source_lang ≠ "en" then
    ((prompt_translate m (prompt_translate m text "en").1 target_lang).1,
     (prompt_translate m text "en").2
       ++ (prompt_translate m (prompt_translate m text "en").1 target_lang).2)
  else
    prompt_translate m text target_lang

/-! ## AudioProcessor (src/backend/audio_processor.py) -/

/-- `max_buffer_size = 16000 * 4 * 5` from `_add_to_buffer`: 5 seconds at
16 kHz, 4 bytes per float32 sample. -/
def max_buffer_size : Nat := 16000 * 4 * 5

/-- The per-key trim of `_add_to_buffer`: extend the buffer with the chunk,
then keep only the trailing `max_buffer_size` bytes when the cap is
exceeded (`buffer[-max_buffer_size:]`). -/
def add_to_buffer_list (buf chunk : List Nat) : List Nat :=
  if max_buffer_size < (buf ++ chunk).length then
    (buf ++ chunk).drop ((buf ++ chunk).length - max_buffer_size)
  else buf ++ chunk

/-- The composite dictionary key `f"{room_id}_{user_id}"`. -/
def buffer_key (room_id user_id : String) : String := room_id ++ "_" ++ user_id

/-- Embeds `AudioProcessor._add_to_buffer` (audio_processor.py lines
145-160): updates the `audio_buffers` map at the composite key and returns
the updated map together with the (possibly trimmed) full buffer content,
which the method returns to its caller. A missing key behaves like the empty
buffer, matching the `bytearray()` initialisation of absent keys. -/
def add_to_buffer (buffers : String → List Nat) (room_id user_id : String)
    (audio_chunk : List Nat) : (String → List Nat) × List Nat :=
  (Function.update buffers (buffer_key room_id user_id)
     (add_to_buffer_list (buffers (buffer_key room_id user_id)) audio_chunk),
   add_to_buffer_list (buffers (buffer_key room_id user_id)) audio_chunk)

/-- Embeds `AudioProcessor._clear_buffer` (audio_processor.py lines
162-166): resets the keyed buffer to empty. -/
def clear_buffer (buffers : String → List Nat) (room_id user_id : String) :
    String → List Nat :=
  Function.update buffers (buffer_key room_id user_id) []

/-- Mutable state of the `AudioProcessor` object: the `mirror_mode` flag,
the `audio_buffers` dictionary and the `processing_lock` dictionary (a key
maps to `false` when absent; the source initialises this dictionary in
`__init__` with the comment `Prevent concurrent processing for same user`
and then never reads or writes it again). -/
structure ProcState where
  mirror_mode : Bool
  audio_buffers : String → List Nat
  processing_lock : String → Bool

/-- The state built by `AudioProcessor.__init__`: mirror mode on by default,
empty buffer and lock dictionaries. -/
def initState : ProcState :=
  { mirror_mode := true, audio_buffers := fun _ => [], processing_lock := fun _ => false }

/-- The translation-result dictionary built by `process_audio_chunk`. -/
structure BroadcastResult where
  original_text : String
  translated_text : String
  language : String
  user_id : String
deriving DecidableEq

/-- Return value of `process_audio_chunk`: `mirrored ok` models the Python
`True`/`False` returns of the mirror branch, `translation r` the result
dictionary, `noResult` the `None` returns. -/
inductive ChunkResult where
  | mirrored (ok : Bool)
  | translation (r : BroadcastResult)
  | noResult
deriving DecidableEq

/-- Embeds `AudioProcessor.process_audio_chunk` (audio_processor.py lines
89-143) as a state transformer.

In mirror mode the chunk is echoed to the originating websocket `ws` (the
`sendOk` flag models whether `websocket.send_bytes` raises) and nothing else
happens. Otherwise the chunk is appended to the keyed buffer; the buffer is
reinterpreted as float32 samples (`np.frombuffer` raises on a byte length
that is not a multiple of 4, which the outer `except` turns into a `None`
return); fewer than 8000 samples return `None`; otherwise
`transcribe_and_translate` runs on the buffered audio with no forced source
language, and the result dictionary is returned, and the buffer cleared,
exactly when the translated text is a nonempty string (the source condition
`result and result.get("translated_text") and len(...) > 0`).

Result components: the chunk result, the new state, the list of
(connection, bytes) sends performed directly by the method, and the trace of
collaborator calls. -/
def process_audio_chunk (m : WhisperModel (List Nat)) (sendOk : Bool) (st : ProcState)
    (room_id user_id : String) (audio_chunk : List Nat) (target_lang ws : String) :
    ChunkResult × ProcState × List (String × List Nat) × List ModelCall :=
  if st.mirror_mode then
    if sendOk then (ChunkResult.mirrored true, st, [(ws, audio_chunk)], [])
    else (ChunkResult.mirrored false, st, [], [])
  else
    if (add_to_buffer st.audio_buffers room_id user_id audio_chunk).2.length % 4 ≠ 0 then
      (ChunkResult.noResult,
       { st with audio_buffers := (add_to_buffer st.audio_buffers room_id user_id audio_chunk).1 },
       [], [])
    else if (add_to_buffer st.audio_buffers room_id user_id audio_chunk).2.length / 4 < 8000 then
      (ChunkResult.noResult,
       { st with audio_buffers := (add_to_buffer st.audio_buffers room_id user_id audio_chunk).1 },
       [], [])
    else
      if (transcribe_and_translate m
            (add_to_buffer st.audio_buffers room_id user_id audio_chunk).2
            none target_lang).1.translated_text = "" then
        (ChunkResult.noResult,
         { st with audio_buffers := (add_to_buffer st.audio_buffers room_id user_id audio_chunk).1 },
         [],
         (transcribe_and_translate m
            (add_to_buffer st.audio_buffers room_id user_id audio_chunk).2
            none target_lang).2)
      else
        (ChunkResult.translation
           ⟨(transcribe_and_translate m
               (add_to_buffer st.audio_buffers room_id user_id audio_chunk).2
               none target_lang).1.original_text,
            (transcribe_and_translate m
               (add_to_buffer st.audio_buffers room_id user_id audio_chunk).2
               none target_lang).1.translated_text,
            (transcribe_and_translate m
               (add_to_buffer st.audio_buffers room_id user_id audio_chunk).2
               none target_lang).1.detected_language,
            user_id⟩,
         { st with audio_buffers :=
             (clear_buffer (add_to_buffer st.audio_buffers room_id user_id audio_chunk).1
               room_id user_id) },
         [],
         (transcribe_and_translate m
            (add_to_buffer st.audio_buffers room_id user_id audio_chunk).2
            none target_lang).2)

/-! ## main.py dispatch -/

/-- Embeds the binary-frame branch of the websocket receive loop in
`main.py` (lines 130-151). The call at line 136 passes `room_id`,
`user_id`, `audio_chunk` and `target_lang` but omits the `websocket`
parameter, which `process_audio_chunk` (audio_processor.py line 90)
requires without a default; Python therefore raises `TypeError` at the call
itself, before the handler body runs, and the `except` at line 158 catches
it and the loop continues. The branch consequently changes no processor
state, sends nothing, and hands nothing to `broadcast_translation`, for
every frame: the components are the unchanged state, the empty list of
(connection, bytes) sends, and the absent broadcast payload. The dispatch
code at lines 144-151 is dead, since `result` is never assigned. -/
def websocket_loop_binary_frame (st : ProcState) (_frame : List Nat) :
    ProcState × List (String × List Nat) × Option BroadcastResult :=
  (st, [], none)

/-- Response of the `/translate-text` endpoint: a JSON body with the
translated text, or an `HTTPException` with a status code and detail. -/
inductive HttpResponse where
  | ok (translated_text : String)
  | error (status : Nat) (detail : String)
deriving DecidableEq

/-- Embeds the `/translate-text` endpoint (main.py lines 190-201). The
`except` branch raising `HTTPException(500, ...)` is reachable only when
`translation_service.translate_text` raises; that method catches every
collaborator failure internally (returning its input text), so the endpoint
reduces to the success branch around the total service call. -/
def translate_text_endpoint {α : Type} (m : WhisperModel α)
    (text source_lang target_lang : String) : HttpResponse :=
  HttpResponse.ok (translate_text m text source_lang target_lang).1

/-! ## Claim harness definitions -/

/-- Folding a whole sequence of chunk appends for one key through the trim
of `_add_to_buffer`, starting from the empty accumulator: the stored buffer
after every chunk of the sequence has been appended. -/
def chunks_fold (chunks : List (List Nat)) : List Nat :=
  chunks.foldl add_to_buffer_list []

/-- Concrete collaborator whose transcription is the whitespace-only string
with detected language en, used to exercise the chunk pipeline. -/
def whitespaceModel : WhisperModel (List Nat) :=
  { transcribe := fun _ _ _ => some ⟨" ", some "en"⟩,
    decode := fun _ _ => some "",
    languageName := fun _ => none }

/-- Concrete collaborator that transcribes Spanish speech as hola, renders
it in English as hello, and whose decode step always raises. -/
def decodeFailModel : WhisperModel Unit :=
  { transcribe := fun _ _ task =>
      if task = "translate" then some ⟨"hello", some "es"⟩ else some ⟨"hola", some "es"⟩,
    decode := fun _ _ => none,
    languageName := fun _ => some "French" }

/-- Concrete collaborator whose transcribe-task call succeeds with Spanish
hola while every translate-task call and every decode call raises. -/
def translateFailModel : WhisperModel Unit :=
  { transcribe := fun _ _ task =>
      if task = "translate" then none else some ⟨"hola", some "es"⟩,
    decode := fun _ _ => none,
    languageName := fun _ => none }

/-- Concrete collaborator all of whose calls raise. -/
def failAllModel : WhisperModel Unit :=
  { transcribe := fun _ _ _ => none, decode := fun _ _ => none, languageName := fun _ => none }

/-- Concrete collaborator all of whose calls raise, over audio buffers. -/
def failListModel : WhisperModel (List Nat) :=
  { transcribe := fun _ _ _ => none, decode := fun _ _ => none, languageName := fun _ => none }

/-- Concrete collaborator whose decode step succeeds with the empty string. -/
def emptyDecodeModel : WhisperModel Unit :=
  { transcribe := fun _ _ _ => none, decode := fun _ _ => some "", languageName := fun _ => none }

/-- Processor state with mirror mode turned off and empty dictionaries. -/
def mirrorOffState : ProcState :=
  { mirror_mode := false, audio_buffers := fun _ => [], processing_lock := fun _ => false }

/-- Processor state with mirror mode off and the in-flight flag of every key
set, for checking that the chunk handler ignores the flag. -/
def lockedState : ProcState :=
  { mirror_mode := false, audio_buffers := fun _ => [], processing_lock := fun _ => true }

/-- A chunk of 32000 bytes: 8000 float32 samples, exactly the processing
threshold of `process_audio_chunk`. -/
def chunk32000 : List Nat := List.replicate 32000 0

/-! ## Helper lemmas -/

lemma add_to_buffer_snd (b : String → List Nat) (r u : String) (c : List Nat) :
    (add_to_buffer b r u c).2 = add_to_buffer_list (b (buffer_key r u)) c := rfl

lemma add_to_buffer_fst (b : String → List Nat) (r u : String) (c : List Nat) :
    (add_to_buffer b r u c).1
      = Function.update b (buffer_key r u)
          (add_to_buffer_list (b (buffer_key r u)) c) := rfl

lemma add_to_buffer_list_of_le (buf chunk : List Nat)
    (h : (buf ++ chunk).length ≤ max_buffer_size) :
    add_to_buffer_list buf chunk = buf ++ chunk := by
  unfold add_to_buffer_list
  rw [if_neg (by omega)]

/-- One append preserves the trailing-window characterisation of the stored
buffer: appending to the trailing window of a logical concatenation yields
the trailing window of the extended concatenation. -/
lemma add_to_buffer_list_shift (l c : List Nat) :
    add_to_buffer_list (l.drop (l.length - max_buffer_size)) c
      = (l ++ c).drop ((l ++ c).length - max_buffer_size) := by
  have hk : l.length - max_buffer_size ≤ l.length := Nat.sub_le _ _
  have hb : l.drop (l.length - max_buffer_size) ++ c
      = (l ++ c).drop (l.length - max_buffer_size) := by
    rw [List.drop_append_eq_append_drop, Nat.sub_eq_zero_of_le hk, List.drop_zero]
  unfold add_to_buffer_list
  rw [hb, List.length_drop, List.length_append]
  by_cases h : max_buffer_size < l.length + c.length - (l.length - max_buffer_size)
  · rw [if_pos h, List.drop_drop]
    refine congrArg (fun n => (l ++ c).drop n) ?_
    omega
  · rw [if_neg h]
    refine congrArg (fun n => (l ++ c).drop n) ?_
    omega

/-- The stored buffer after any sequence of appends is the trailing window
of the logical concatenation of all appended chunks. -/
lemma chunks_fold_eq (chunks : List (List Nat)) :
    chunks_fold chunks
      = chunks.flatten.drop (chunks.flatten.length - max_buffer_size) := by
  induction chunks using List.reverseRecOn with
  | nil => simp [chunks_fold]
  | append_singleton cs c ih =>
      rw [chunks_fold, List.foldl_append]
      rw [show List.foldl add_to_buffer_list [] cs = chunks_fold cs from rfl]
      rw [List.foldl_cons, List.foldl_nil, ih, add_to_buffer_list_shift,
        List.flatten_append]
      simp

/-- `_prompt_translate` records exactly one decode call, whether or not the
decode succeeds. -/
lemma prompt_translate_calls {α : Type} (m : WhisperModel α) (text tgt : String) :
    (prompt_translate m text tgt).2
      = [ModelCall.decodeCall (translatePrompt m text tgt) tgt] := by
  unfold prompt_translate
  cases m.decode (translatePrompt m text tgt) tgt <;> rfl

/-- When every decode call raises, `translate_text` returns its input text on
every path: each prompt-translation step falls back to its own input. -/
lemma translate_text_decode_fail {α : Type} (m : WhisperModel α)
    (text source_lang target_lang : String)
    (hfail : ∀ p l, m.decode p l = none) :
    (translate_text m text source_lang target_lang).1 = text := by
  have hp : ∀ t l, (prompt_translate m t l).1 = t := by
    intro t l
    unfold prompt_translate
    rw [hfail]
  unfold translate_text
  split_ifs <;> simp [hp]

lemma chunk32000_length : chunk32000.length = 32000 := by
  rw [chunk32000]; exact List.length_replicate 32000 0

/-- With the whitespace collaborator, one pipeline invocation performs its
single transcription call and returns the whitespace text unchanged. -/
lemma whitespace_outcome : transcribe_and_translate whitespaceModel chunk32000 none "en"
    = (⟨" ", " ", "en"⟩, [ModelCall.transcribeCall none "transcribe"]) := rfl

/-- Concrete run of the chunk handler on a threshold-sized chunk with an
empty stored buffer: the whitespace transcription passes the nonempty filter,
so the handler returns a translation result and clears the buffer. -/
lemma run_whitespace (st : ProcState) (hm : st.mirror_mode = false)
    (hbuf : st.audio_buffers (buffer_key "r" "u") = []) :
    process_audio_chunk whitespaceModel true st "r" "u" chunk32000 "en" "ws"
      = (ChunkResult.translation ⟨" ", " ", "en", "u"⟩,
         { st with audio_buffers :=
             (clear_buffer (add_to_buffer st.audio_buffers "r" "u" chunk32000).1 "r" "u") },
         [], [ModelCall.transcribeCall none "transcribe"]) := by
  have hb : (add_to_buffer st.audio_buffers "r" "u" chunk32000).2 = chunk32000 := by
    rw [add_to_buffer_snd, hbuf,
      add_to_buffer_list_of_le _ _
        (by rw [List.nil_append, chunk32000_length]; norm_num [max_buffer_size])]
    exact List.nil_append _
  unfold process_audio_chunk
  rw [hm, if_neg (by simp : ¬ (false = true)), hb, chunk32000_length]
  rw [if_neg (by norm_num : ¬ (32000 % 4 ≠ 0)), if_neg (by norm_num : ¬ (32000 / 4 < 8000))]
  rw [whitespace_outcome]
  rw [if_neg (by decide : ¬ (" " = ""))]

/-- Clearing the key after the append restores the all-empty buffer map. -/
lemma lockedState_after :
    (clear_buffer (add_to_buffer lockedState.audio_buffers "r" "u" chunk32000).1 "r" "u")
      = fun _ => ([] : List Nat) := by
  funext k
  by_cases hk : k = buffer_key "r" "u"
  · subst hk
    unfold clear_buffer
    rw [Function.update_same]
  · unfold clear_buffer
    rw [Function.update_noteq hk, add_to_buffer_fst, Function.update_noteq hk]
    rfl

/-- With mirror mode off, an empty translated text from the pipeline makes
the chunk handler return None with no sends, on every gate path (byte
misalignment, short buffer, or the nonempty filter). -/
lemma process_chunk_empty_noResult (m : WhisperModel (List Nat)) (sendOk : Bool)
    (st : ProcState) (room user : String) (chunk : List Nat) (target ws : String)
    (hm : st.mirror_mode = false)
    (he : (transcribe_and_translate m
            (add_to_buffer st.audio_buffers room user chunk).2
            none target).1.translated_text = "") :
    (process_audio_chunk m sendOk st room user chunk target ws).1 = ChunkResult.noResult
  ∧ (process_audio_chunk m sendOk st room user chunk target ws).2.2.1 = [] := by
  unfold process_audio_chunk
  rw [hm, if_neg (by simp : ¬ (false = true)), if_pos he]
  constructor
  · split
    · rfl
    · split <;> rfl
  · split
    · rfl
    · split <;> rfl

/-! ## Claim theorems -/

/-- C1: the claimed per-key exclusive-processing gate does not exist in the
code. The chunk handler never reads or writes the in-flight dictionary
(`processing_lock`): with every key marked in flight, a threshold-sized
chunk still triggers a pipeline invocation (nonempty collaborator-call
trace), an immediately following chunk triggers a second invocation with no
begin/end transition between them, and the in-flight dictionary is left
untouched. In general the resulting lock map always equals the input lock
map, and the handler result and its sends/trace are independent of the lock
map, so no begin-style acquisition ever guards the pipeline. -/
theorem C1_no_inflight_gate :
    ((process_audio_chunk whitespaceModel true lockedState "r" "u" chunk32000 "en" "ws").2.2.2 ≠ []
      ∧ (process_audio_chunk whitespaceModel true
            (process_audio_chunk whitespaceModel true lockedState
              "r" "u" chunk32000 "en" "ws").2.1
            "r" "u" chunk32000 "en" "ws").2.2.2 ≠ []
      ∧ ∀ key, (process_audio_chunk whitespaceModel true lockedState
            "r" "u" chunk32000 "en" "ws").2.1.processing_lock key = true)
  ∧ (∀ (m : WhisperModel (List Nat)) (sendOk : Bool) (st : ProcState)
        (room user : String) (chunk : List Nat) (target ws : String),
        (process_audio_chunk m sendOk st room user chunk target ws).2.1.processing_lock
          = st.processing_lock)
  ∧ (∀ (m : WhisperModel (List Nat)) (sendOk : Bool) (st st2 : ProcState)
        (room user : String) (chunk : List Nat) (target ws : String),
        st2.mirror_mode = st.mirror_mode → st2.audio_buffers = st.audio_buffers →
        (process_audio_chunk m sendOk st2 room user chunk target ws).1
            = (process_audio_chunk m sendOk st room user chunk target ws).1
        ∧ (process_audio_chunk m sendOk st2 room user chunk target ws).2.2
            = (process_audio_chunk m sendOk st room user chunk target ws).2.2) := by
  have hrun1 := run_whitespace lockedState rfl rfl
  have hst1 : (process_audio_chunk whitespaceModel true lockedState
      "r" "u" chunk32000 "en" "ws").2.1 = lockedState := by
    rw [hrun1]
    dsimp only
    rw [lockedState_after]
    rfl
  refine ⟨⟨?_, ?_, ?_⟩, ?_, ?_⟩
  · rw [hrun1]
    simp
  · rw [hst1, hrun1]
    simp
  · intro key
    rw [hrun1]
    rfl
  · intro m sendOk st room user chunk target ws
    unfold process_audio_chunk
    split_ifs <;> rfl
  · intro m sendOk st st2 room user chunk target ws h1 h2
    unfold process_audio_chunk
    rw [h1, h2]
    constructor
    · split_ifs <;> rfl
    · split_ifs <;> rfl

/-- C1 witness: the lock-independence parts of the theorem instantiated at
concrete states whose mirror flag and buffers agree pointwise while their
lock maps differ everywhere. -/
theorem C1_no_inflight_gate_witness :
    (process_audio_chunk whitespaceModel true mirrorOffState
        "r" "u" chunk32000 "en" "ws").2.1.processing_lock = mirrorOffState.processing_lock
  ∧ (process_audio_chunk whitespaceModel true lockedState "r" "u" chunk32000 "en" "ws").1
      = (process_audio_chunk whitespaceModel true mirrorOffState
          "r" "u" chunk32000 "en" "ws").1 :=
  ⟨C1_no_inflight_gate.2.1 whitespaceModel true mirrorOffState "r" "u" chunk32000 "en" "ws",
   (C1_no_inflight_gate.2.2 whitespaceModel true mirrorOffState lockedState
      "r" "u" chunk32000 "en" "ws" rfl rfl).1⟩

/-- C2: for every sequence of appended chunks for one key, the stored buffer
length never exceeds the cap of 16000 * 4 * 5 bytes and always equals the
minimum of the logical concatenation length and the cap (so once the
concatenation exceeds the cap the stored length is exactly the cap), and the
stored content is the trailing cap-sized slice of the logical concatenation
of all appended bytes (the trailing window, oldest bytes dropped first);
moreover a single append returns exactly the stored (possibly trimmed) full
buffer content for the key. -/
theorem C2_buffer_sliding_window :
    (∀ chunks : List (List Nat),
        (chunks_fold chunks).length ≤ max_buffer_size
      ∧ (chunks_fold chunks).length = min chunks.flatten.length max_buffer_size
      ∧ chunks_fold chunks
          = chunks.flatten.drop (chunks.flatten.length - max_buffer_size))
  ∧ ∀ (buffers : String → List Nat) (room user : String) (c : List Nat),
      (add_to_buffer buffers room user c).2
        = (add_to_buffer buffers room user c).1 (buffer_key room user) := by
  constructor
  · intro chunks
    have h := chunks_fold_eq chunks
    refine ⟨?_, ?_, h⟩ <;> rw [h, List.length_drop] <;> omega
  · intro buffers room user c
    rw [add_to_buffer_snd, add_to_buffer_fst, Function.update_same]

/-- C3: when transcription succeeds and the detected language equals the
target language, `transcribe_and_translate` returns a translated text equal
to the original text, and its collaborator-call trace is exactly the single
initial transcription call: no direct translate call and no two-hop
fallback step is invoked. -/
theorem C3_same_language_shortcut {α : Type} (m : WhisperModel α) (audio : α)
    (source_lang : Option String) (target_lang : String) (tr : TranscribeResult)
    (h : m.transcribe audio source_lang "transcribe" = some tr)
    (hd : tr.language.getD "en" = target_lang) :
    (transcribe_and_translate m audio source_lang target_lang).1.translated_text
      = (transcribe_and_translate m audio source_lang target_lang).1.original_text
  ∧ (transcribe_and_translate m audio source_lang target_lang).2
      = [ModelCall.transcribeCall source_lang "transcribe"] := by
  unfold transcribe_and_translate
  rw [h]
  dsimp only
  rw [if_pos hd]
  exact ⟨rfl, rfl⟩

/-- C3 witness: the shortcut at a concrete collaborator that detects en
while the target is en. -/
theorem C3_same_language_shortcut_witness :
    (transcribe_and_translate whitespaceModel ([] : List Nat) none "en").1.translated_text
      = (transcribe_and_translate whitespaceModel ([] : List Nat) none "en").1.original_text
  ∧ (transcribe_and_translate whitespaceModel ([] : List Nat) none "en").2
      = [ModelCall.transcribeCall none "transcribe"] :=
  C3_same_language_shortcut whitespaceModel [] none "en" ⟨" ", some "en"⟩ rfl rfl

/-- C4: when transcription succeeds, every transcription call of the
collaborator succeeds, and the detected language differs from the target
language, the two-hop fallback (a translate-to-English audio pass together
with a prompt-based decode step) is invoked if and only if the target
language is not en and the detected language is not en; and in that case the
whole trace is exactly one transcription call, then exactly one
translate-to-English intermediate call, then the prompt-based decode call,
in this order. -/
theorem C4_two_hop_fallback {α : Type} (m : WhisperModel α) (audio : α)
    (source_lang : Option String) (target_lang : String) (tr : TranscribeResult)
    (h : m.transcribe audio source_lang "transcribe" = some tr)
    (htotal : ∀ l task, (m.transcribe audio l task).isSome = true)
    (hd : tr.language.getD "en" ≠ target_lang) :
    (((transcribe_and_translate m audio source_lang target_lang).2.any
          ModelCall.isAudioTranslate = true
        ∧ (transcribe_and_translate m audio source_lang target_lang).2.any
            ModelCall.isDecode = true)
      ↔ target_lang ≠ "en" ∧ tr.language.getD "en" ≠ "en")
  ∧ (target_lang ≠ "en" → tr.language.getD "en" ≠ "en" →
      ∃ p, (transcribe_and_translate m audio source_lang target_lang).2
        = [ModelCall.transcribeCall source_lang "transcribe",
           ModelCall.transcribeCall (some (tr.language.getD "en")) "translate",
           ModelCall.decodeCall p target_lang]) := by
  unfold transcribe_and_translate
  rw [h]
  dsimp only
  rw [if_neg hd]
  by_cases ht : target_lang = "en"
  · rw [if_neg (by simp [ht])]
    obtain ⟨er, her⟩ :=
      Option.isSome_iff_exists.mp (htotal (some (tr.language.getD "en")) "translate")
    rw [her]
    dsimp only
    constructor
    · simp [ModelCall.isAudioTranslate, ModelCall.isDecode, ht]
    · intro h1 _
      exact absurd ht h1
  · rw [if_pos ht]
    by_cases hdet : tr.language.getD "en" = "en"
    · rw [if_neg (by simp [hdet])]
      rw [prompt_translate_calls]
      constructor
      · simp [ModelCall.isAudioTranslate, ModelCall.isDecode, hdet]
      · intro _ h2
        exact absurd hdet h2
    · rw [if_pos hdet]
      obtain ⟨er, her⟩ :=
        Option.isSome_iff_exists.mp (htotal (some (tr.language.getD "en")) "translate")
      rw [her]
      dsimp only
      rw [prompt_translate_calls]
      constructor
      · simp [ModelCall.isAudioTranslate, ModelCall.isDecode, ht, hdet]
      · intro _ _
        exact ⟨_, rfl⟩

/-- C4 witness: the fallback at a concrete collaborator with detected
language es and target fr, where both the intermediate pass and the decode
call appear exactly once and in order. -/
theorem C4_two_hop_fallback_witness :
    (((transcribe_and_translate decodeFailModel () none "fr").2.any
          ModelCall.isAudioTranslate = true
        ∧ (transcribe_and_translate decodeFailModel () none "fr").2.any
            ModelCall.isDecode = true)
      ↔ ("fr" : String) ≠ "en" ∧ ("es" : String) ≠ "en")
  ∧ (("fr" : String) ≠ "en" → ("es" : String) ≠ "en" →
      ∃ p, (transcribe_and_translate decodeFailModel () none "fr").2
        = [ModelCall.transcribeCall none "transcribe",
           ModelCall.transcribeCall (some "es") "translate",
           ModelCall.decodeCall p "fr"]) :=
  C4_two_hop_fallback decodeFailModel () none "fr" ⟨"hola", some "es"⟩ rfl
    (fun l task => by by_cases h : task = "translate" <;> simp [decodeFailModel, h])
    (by decide)

/-- C5 counterexample: the claim fails for a whitespace-only transcription.
With a collaborator transcribing the whitespace-only text of one space
(detected language en, target en, so the translated text is that same
space), a threshold-sized chunk makes `process_audio_chunk` return a
translation result, not the no-result outcome the claim requires: the
handler filters only on nonempty translated text (`len(...) > 0`) and has
no whitespace check on this path. -/
theorem C5_whitespace_result_counterexample :
    (transcribe_and_translate whitespaceModel
        (add_to_buffer mirrorOffState.audio_buffers "r" "u" chunk32000).2
        none "en").1.original_text = " "
  ∧ (process_audio_chunk whitespaceModel true mirrorOffState
        "r" "u" chunk32000 "en" "ws").1
      = ChunkResult.translation ⟨" ", " ", "en", "u"⟩
  ∧ (process_audio_chunk whitespaceModel true mirrorOffState
        "r" "u" chunk32000 "en" "ws").1
      ≠ ChunkResult.noResult := by
  have h := run_whitespace mirrorOffState rfl rfl
  exact ⟨rfl, by rw [h], by rw [h]; simp⟩

/-- C5 amended: if the translated text produced by the pipeline on the
buffered segment is the empty string (in particular when the transcription
is empty and the detected language equals the target), the chunk handler
returns the no-result outcome None rather than an error and performs no
sends; whitespace-only transcriptions are not filtered on this path. The
websocket caller broadcasts nothing for any binary frame in any case,
because its call to the handler omits the required websocket argument and
the resulting TypeError is caught by the loop. -/
theorem C5_empty_translation_no_result (m : WhisperModel (List Nat)) (sendOk : Bool)
    (st : ProcState) (room user : String) (chunk : List Nat) (target ws : String)
    (hm : st.mirror_mode = false)
    (he : (transcribe_and_translate m
            (add_to_buffer st.audio_buffers room user chunk).2
            none target).1.translated_text = "") :
    ((process_audio_chunk m sendOk st room user chunk target ws).1 = ChunkResult.noResult
      ∧ (process_audio_chunk m sendOk st room user chunk target ws).2.2.1 = [])
  ∧ ∀ (st2 : ProcState) (frame : List Nat),
      websocket_loop_binary_frame st2 frame = (st2, [], none) :=
  ⟨process_chunk_empty_noResult m sendOk st room user chunk target ws hm he,
   fun _ _ => rfl⟩

/-- C5 witness: the amended theorem at a collaborator whose transcription
raises, so the translated text is empty and the handler yields None. -/
theorem C5_empty_translation_no_result_witness :
    ((process_audio_chunk failListModel true mirrorOffState
        "r" "u" chunk32000 "en" "ws").1 = ChunkResult.noResult
      ∧ (process_audio_chunk failListModel true mirrorOffState
          "r" "u" chunk32000 "en" "ws").2.2.1 = [])
  ∧ ∀ (st2 : ProcState) (frame : List Nat),
      websocket_loop_binary_frame st2 frame = (st2, [], none) :=
  C5_empty_translation_no_result failListModel true mirrorOffState
    "r" "u" chunk32000 "en" "ws" rfl rfl

/-- C6: with mirror mode off, a chunk-handler run clears the keyed buffer
exactly when it returns a translation result, which happens exactly when the
pipeline yielded a nonempty translated text: on a translation result the
stored buffer for the key is reset to empty and the carried translated text
is nonempty; on a no-result outcome (short buffer, byte-length misalignment,
empty transcription, or collaborator failure) the stored buffer equals the
appended buffer, retained rather than cleared; buffers of every other key
are unchanged. -/
theorem C6_buffer_clear_iff_translation (m : WhisperModel (List Nat)) (sendOk : Bool)
    (st : ProcState) (room user : String) (chunk : List Nat) (target ws : String)
    (hm : st.mirror_mode = false) :
    (∀ r, (process_audio_chunk m sendOk st room user chunk target ws).1
          = ChunkResult.translation r →
        r.translated_text ≠ ""
      ∧ (process_audio_chunk m sendOk st room user chunk target ws).2.1.audio_buffers
          (buffer_key room user) = [])
  ∧ ((process_audio_chunk m sendOk st room user chunk target ws).1 = ChunkResult.noResult →
      (process_audio_chunk m sendOk st room user chunk target ws).2.1.audio_buffers
          (buffer_key room user)
        = add_to_buffer_list (st.audio_buffers (buffer_key room user)) chunk)
  ∧ ∀ k, k ≠ buffer_key room user →
      (process_audio_chunk m sendOk st room user chunk target ws).2.1.audio_buffers k
        = st.audio_buffers k := by
  unfold process_audio_chunk
  rw [hm]
  rw [if_neg (by simp : ¬ (false = true))]
  split
  · refine ⟨?_, ?_, ?_⟩
    · intro r hr
      cases hr
    · intro _
      dsimp only
      rw [add_to_buffer_fst, Function.update_same]
    · intro k hk
      dsimp only
      rw [add_to_buffer_fst, Function.update_noteq hk]
  · split
    · refine ⟨?_, ?_, ?_⟩
      · intro r hr
        cases hr
      · intro _
        dsimp only
        rw [add_to_buffer_fst, Function.update_same]
      · intro k hk
        dsimp only
        rw [add_to_buffer_fst, Function.update_noteq hk]
    · split
      · refine ⟨?_, ?_, ?_⟩
        · intro r hr
          cases hr
        · intro _
          dsimp only
          rw [add_to_buffer_fst, Function.update_same]
        · intro k hk
          dsimp only
          rw [add_to_buffer_fst, Function.update_noteq hk]
      · next hne =>
        refine ⟨?_, ?_, ?_⟩
        · intro r hr
          injection hr with hr2
          constructor
          · rw [← hr2]
            exact hne
          · dsimp only
            unfold clear_buffer
            rw [Function.update_same]
        · intro hr
          cases hr
        · intro k hk
          dsimp only
          unfold clear_buffer
          rw [Function.update_noteq hk, add_to_buffer_fst, Function.update_noteq hk]

/-- C6 witness: the clear/retain dichotomy at a concrete state with mirror
mode off. -/
theorem C6_buffer_clear_iff_translation_witness :
    (∀ r, (process_audio_chunk whitespaceModel true mirrorOffState
          "r" "u" chunk32000 "en" "ws").1 = ChunkResult.translation r →
        r.translated_text ≠ ""
      ∧ (process_audio_chunk whitespaceModel true mirrorOffState
          "r" "u" chunk32000 "en" "ws").2.1.audio_buffers (buffer_key "r" "u") = [])
  ∧ ((process_audio_chunk whitespaceModel true mirrorOffState
        "r" "u" chunk32000 "en" "ws").1 = ChunkResult.noResult →
      (process_audio_chunk whitespaceModel true mirrorOffState
          "r" "u" chunk32000 "en" "ws").2.1.audio_buffers (buffer_key "r" "u")
        = add_to_buffer_list (mirrorOffState.audio_buffers (buffer_key "r" "u")) chunk32000)
  ∧ ∀ k, k ≠ buffer_key "r" "u" →
      (process_audio_chunk whitespaceModel true mirrorOffState
          "r" "u" chunk32000 "en" "ws").2.1.audio_buffers k
        = mirrorOffState.audio_buffers k :=
  C6_buffer_clear_iff_translation whitespaceModel true mirrorOffState
    "r" "u" chunk32000 "en" "ws" rfl

/-- C7: the claimed mirror echo never happens through the websocket
endpoint: the receive loop calls the chunk handler without its required
websocket argument, so every received binary frame raises TypeError (caught
by the loop) and zero bytes are echoed, the state is unchanged and nothing
is broadcast, whatever the mirror flag. The handler itself, when actually
invoked with a connection and mirror mode on (the default state), does echo
exactly the received bytes to the originating connection only, with the
whole state untouched and no collaborator calls: the claim describes the
handler, and the defect is the call site in main.py. -/
theorem C7_mirror_echo_dead_call :
    (∀ (st : ProcState) (frame : List Nat),
        websocket_loop_binary_frame st frame = (st, [], none))
  ∧ ∀ (chunk : List Nat) (room user target ws : String),
      process_audio_chunk whitespaceModel true initState room user chunk target ws
        = (ChunkResult.mirrored true, initState, [(ws, chunk)], []) :=
  ⟨fun _ _ => rfl, fun _ _ _ _ _ => rfl⟩

/-- C8 counterexample: the claim fails for a failing translation step. With
a collaborator whose decode call always raises but whose transcription calls
succeed (Spanish hola, English rendering hello, target fr), the invocation
does not abort with an empty outcome: `_prompt_translate` absorbs the decode
failure and falls back to its input, so `transcribe_and_translate` returns
the nonempty translated text hello as a normal success. -/
theorem C8_decode_failure_counterexample :
    (transcribe_and_translate decodeFailModel () none "fr").1
      = (⟨"hola", "hello", "es"⟩ : TranslateOutcome)
  ∧ (transcribe_and_translate decodeFailModel () none "fr").1.translated_text ≠ "" := by
  constructor <;> decide

/-- C8 amended: a failure of any transcription collaborator call aborts the
invocation with the empty outcome (empty original and translated texts,
detected language falling back to the requested source or en): this covers
the initial transcribe-task call and, when the step runs at all (English
target, or two-hop case of a non-English target with a non-English detected
language), the translate-task call; the chunk handler then returns None
with no sends. A failure of the prompt-based decode step never escapes
either, but it does not abort: the prompt-translation step returns its
input text unchanged, so no collaborator failure propagates as an
exception. -/
theorem C8_transcription_failure_empty_outcome {α : Type} (m : WhisperModel α)
    (audio : α) (source_lang : Option String) (text target_lang : String)
    (tr : TranscribeResult) :
    (m.transcribe audio source_lang "transcribe" = none →
      (transcribe_and_translate m audio source_lang target_lang).1
        = ⟨"", "", orEn source_lang⟩)
  ∧ (m.transcribe audio source_lang "transcribe" = some tr →
      tr.language.getD "en" ≠ target_lang →
      (target_lang = "en" ∨ tr.language.getD "en" ≠ "en") →
      m.transcribe audio (some (tr.language.getD "en")) "translate" = none →
      (transcribe_and_translate m audio source_lang target_lang).1
        = ⟨"", "", orEn source_lang⟩)
  ∧ (m.decode (translatePrompt m text target_lang) target_lang = none →
      (prompt_translate m text target_lang).1 = text)
  ∧ (∀ (mL : WhisperModel (List Nat)) (sendOk : Bool) (st : ProcState)
        (room user : String) (chunk : List Nat) (target ws : String),
      st.mirror_mode = false →
      mL.transcribe (add_to_buffer st.audio_buffers room user chunk).2
          none "transcribe" = none →
      (process_audio_chunk mL sendOk st room user chunk target ws).1
          = ChunkResult.noResult
      ∧ (process_audio_chunk mL sendOk st room user chunk target ws).2.2.1 = []) := by
  refine ⟨?_, ?_, ?_, ?_⟩
  · intro h
    unfold transcribe_and_translate
    rw [h]
  · intro h1 hd hcase h2
    unfold transcribe_and_translate
    rw [h1]
    dsimp only
    rw [if_neg hd]
    by_cases htgt : target_lang = "en"
    · rw [if_neg (by simp [htgt])]
      rw [h2]
    · rcases hcase with hc | hdet
      · exact absurd hc htgt
      · rw [if_pos htgt, if_pos hdet, h2]
  · intro h
    unfold prompt_translate
    rw [h]
  · intro mL sendOk st room user chunk target ws hm hfail
    refine process_chunk_empty_noResult mL sendOk st room user chunk target ws hm ?_
    unfold transcribe_and_translate
    rw [hfail]

/-- C8 witness: the failure absorptions at concrete collaborators: the
all-failing one, the one whose translate-task pass alone fails, and the
chunk handler over the all-failing one. -/
theorem C8_transcription_failure_empty_outcome_witness :
    (transcribe_and_translate failAllModel () none "fr").1
      = (⟨"", "", "en"⟩ : TranslateOutcome)
  ∧ (transcribe_and_translate translateFailModel () none "fr").1
      = (⟨"", "", "en"⟩ : TranslateOutcome)
  ∧ (prompt_translate failAllModel "hola" "fr").1 = "hola"
  ∧ ((process_audio_chunk failListModel true mirrorOffState
        "r" "u" chunk32000 "en" "ws").1 = ChunkResult.noResult
      ∧ (process_audio_chunk failListModel true mirrorOffState
          "r" "u" chunk32000 "en" "ws").2.2.1 = []) :=
  ⟨(C8_transcription_failure_empty_outcome failAllModel () none "hola" "fr"
      ⟨"", none⟩).1 rfl,
   (C8_transcription_failure_empty_outcome translateFailModel () none "hola" "fr"
      ⟨"hola", some "es"⟩).2.1 rfl (by decide) (Or.inr (by decide)) rfl,
   (C8_transcription_failure_empty_outcome failAllModel () none "hola" "fr"
      ⟨"", none⟩).2.2.1 rfl,
   (C8_transcription_failure_empty_outcome failAllModel () none "hola" "fr"
      ⟨"", none⟩).2.2.2 failListModel true mirrorOffState
      "r" "u" chunk32000 "en" "ws" rfl rfl⟩

/-- C9 counterexample: the claim fails because the service swallows the
failure first. With a collaborator all of whose calls raise, the
`/translate-text` endpoint returns the 200 success body carrying the input
text unchanged, not an error response: `translate_text` catches the
underlying translation failure and falls back to the identity, so the
HTTPException branch of the endpoint never fires for a collaborator
failure. -/
theorem C9_silent_fallback_counterexample :
    translate_text_endpoint failAllModel "hola" "es" "en" = HttpResponse.ok "hola"
  ∧ ∀ s d, translate_text_endpoint failAllModel "hola" "es" "en"
      ≠ HttpResponse.error s d := by
  constructor
  · decide
  · intro s d
    rw [show translate_text_endpoint failAllModel "hola" "es" "en"
        = HttpResponse.ok "hola" by decide]
    simp

/-- C9 amended: when every underlying decode call fails, the plain
text-translation endpoint returns a success response carrying the input text
unchanged for every language pair; no explicit error outcome reaches the
caller, because the service absorbs all collaborator failures before the
endpoint error branch could fire. -/
theorem C9_endpoint_ok_on_decode_failure {α : Type} (m : WhisperModel α)
    (text source_lang target_lang : String)
    (hfail : ∀ p l, m.decode p l = none) :
    translate_text_endpoint m text source_lang target_lang = HttpResponse.ok text := by
  unfold translate_text_endpoint
  rw [translate_text_decode_fail m text source_lang target_lang hfail]

/-- C9 witness: the identity success response at the all-failing
collaborator for a Spanish-to-French request. -/
theorem C9_endpoint_ok_on_decode_failure_witness :
    translate_text_endpoint failAllModel "hola" "es" "fr" = HttpResponse.ok "hola" :=
  C9_endpoint_ok_on_decode_failure failAllModel "hola" "es" "fr" (fun _ _ => rfl)

/-- C10 counterexample: the no-empty-result part of the claim fails. With a
collaborator whose decode step succeeds but produces the empty string,
`translate_text` returns the empty string for the nonempty input hello
(Spanish to English): the identity fallback fires only on exceptions, not on
a successful empty decode. -/
theorem C10_empty_result_counterexample :
    (translate_text emptyDecodeModel "hello" "es" "en").1 = ""
  ∧ ("hello" : String) ≠ "" := by
  constructor <;> decide

/-- C10 amended: `translate_text` never raises; if the source language
equals the target language it returns the input unchanged, and when every
decode call raises it returns the input unchanged on every path (identity
fallback); however a successful decode yielding the empty string makes it
return an empty result even for nonempty input. -/
theorem C10_identity_fallbacks {α : Type} (m : WhisperModel α)
    (text source_lang target_lang : String) :
    (translate_text m text target_lang target_lang).1 = text
  ∧ ((∀ p l, m.decode p l = none) →
      (translate_text m text source_lang target_lang).1 = text) := by
  constructor
  · unfold translate_text
    rw [if_pos rfl]
  · intro hfail
    exact translate_text_decode_fail m text source_lang target_lang hfail

/-- C10 witness: both identity fallbacks at the all-failing collaborator. -/
theorem C10_identity_fallbacks_witness :
    (translate_text failAllModel "hi" "fr" "fr").1 = "hi"
  ∧ (translate_text failAllModel "hi" "es" "fr").1 = "hi" :=
  ⟨(C10_identity_fallbacks failAllModel "hi" "es" "fr").1,
   (C10_identity_fallbacks failAllModel "hi" "es" "fr").2 (fun _ _ => rfl)⟩

end Madellang
